import Mathlib

/-!
Verification of the taxi-ordering bot core (passenger_bot.py): the fulfiller
registry with its flat-file persistence, the dialogue state machine of the
ordering conversation, and the broadcast dispatcher that fans a confirmed
order out to every registered driver and reconciles partial failure.

The embedding is shallow: each Python handler becomes a Lean function on an
explicit session/state value; the messenger transport is modelled as recorded
outbound messages, and per-endpoint send outcomes are supplied by an oracle
`sendOk : Int → Bool`.
-/

namespace TaxiBot

/-! ## Registry persistence (load_driver_ids / save_driver_ids) -/

/-- A JSON value as far as `load_driver_ids` can observe it: either an array,
or a non-array value carrying the result of Python `int(x)` on it
(`none` when the conversion raises). -/
inductive JVal : Type where
  | arr (xs : List JVal)
  | atom (i : Option Int)

/-- Python `int(x)` applied to a JSON value: arrays are never convertible,
atoms carry their own conversion result. -/
def jvalToInt : JVal → Option Int
  | .arr _ => none
  | .atom i => i

/-- Outcome of reading the driver store file: the file may be absent
(`os.path.exists` false), unreadable (`open`/read raises), not valid JSON
(`json.load` raises), or parsed to a JSON value. -/
inductive ReadResult : Type where
  | missing
  | ioError
  | parseError
  | parsed (v : JVal)

/-- The list comprehension `[int(x) for x in data]`: converts elements left to
right, the first failing conversion raises (here: `none`). -/
def intList : List JVal → Option (List Int)
  | [] => some []
  | x :: xs =>
    match jvalToInt x with
    | none => none
    | some n =>
      match intList xs with
      | none => none
      | some l => some (n :: l)

/-- `load_driver_ids`: returns the converted list when the store holds a JSON
array of convertible elements; every failure path (missing file, I/O error,
parse error, non-list payload, element conversion error — the latter caught by
the surrounding `try`) falls through to the empty list. -/
def load_driver_ids : ReadResult → List Int
  | .missing => []
  | .ioError => []
  | .parseError => []
  | .parsed (.atom _) => []
  | .parsed (.arr xs) =>
    match intList xs with
    | none => []
    | some l => l

/-- `save_driver_ids`: `json.dump(ids, f)` serializes the identifier list to
the store as the JSON array of exactly those integers. The file itself lies
outside the shallow embedding, so the function is embedded as the store
content its dump leaves behind — the read result a subsequent
`load_driver_ids` observes when the store is healthy (the write succeeded and
the file is read back intact). A failed write only logs (the `except` branch)
and leaves the previous store content, a case the round-trip claims exclude by
their healthy-store premise. -/
def save_driver_ids (ids : List Int) : ReadResult :=
  .parsed (.arr (ids.map fun n => .atom (some n)))

/-! ## Registry mutation (add_driver / remove_driver core) -/

/-- Outcome reported by the add-driver command's registry mutation. -/
inductive AddResult : Type where
  | Added
  | AlreadyExists
deriving DecidableEq, Repr

/-- Outcome reported by the remove-driver command's registry mutation. -/
inductive RemoveResult : Type where
  | Removed
  | NotFound
deriving DecidableEq, Repr

/-- The registry mutation inside `add_driver`: `if chat_id not in
driver_chat_ids: driver_chat_ids.append(chat_id)` (then persists), reporting
driver_added or driver_exists. -/
def add_driver_core (drivers : List Int) (chat_id : Int) : List Int × AddResult :=
  if chat_id ∈ drivers then (drivers, .AlreadyExists)
  else (drivers ++ [chat_id], .Added)

/-- The registry mutation inside `remove_driver`: `if chat_id in
driver_chat_ids: driver_chat_ids.remove(chat_id)` (removes the first
occurrence, then persists), reporting driver_removed or driver_not_found. -/
def remove_driver_core (drivers : List Int) (chat_id : Int) : List Int × RemoveResult :=
  if chat_id ∈ drivers then (drivers.erase chat_id, .Removed)
  else (drivers, .NotFound)

/-! ## Session state (context.user_data) -/

/-- The per-requester `context.user_data` dictionary: each key is `none` until
the corresponding handler stores it; `waiting_for_comment` is read with
`.get`, so an absent key behaves as `false`. -/
structure Session : Type where
  lang : Option String := none
  name : Option String := none
  phone : Option String := none
  pickup : Option String := none
  pickup_coords : Option (String × String) := none
  waze_link : Option String := none
  dropoff : Option String := none
  comment : Option String := none
  waiting_for_comment : Bool := false
deriving DecidableEq, Repr

/-- The reset sequence shared by submit, cancel and the no-drivers path:
`lang = user_data.get("lang", "en"); user_data.clear(); user_data["lang"] = lang`. -/
def resetSession (s : Session) : Session :=
  { lang := some (s.lang.getD "en") }

/-! ## Navigation-link derivation (get_pickup) -/

/-- Python `address.replace(" ", "%20")` on the character list: the pattern is
a single character, so replacement is per-character. -/
def replaceSpace : List Char → List Char
  | [] => []
  | c :: cs =>
    if c = ' ' then '%' :: '2' :: '0' :: replaceSpace cs
    else c :: replaceSpace cs

/-- `address.replace(" ", "%20")` at the string level. -/
def encodeSpaces (s : String) : String :=
  String.mk (replaceSpace s.data)

/-- The Waze link built from a free-text address:
`f"https://waze.com/ul?q={address}&navigate=yes"` with the address
space-escaped. -/
def wazeLinkOfAddress (address : String) : String :=
  "https://waze.com/ul?q=" ++ encodeSpaces address ++ "&navigate=yes"

/-- The Waze link built from shared coordinates:
`f"https://waze.com/ul?ll={lat},{lon}&navigate=yes"`; latitude and longitude
are interpolated verbatim (their rendered decimal forms are taken as given
strings). -/
def wazeLinkOfCoords (lat lon : String) : String :=
  "https://waze.com/ul?ll=" ++ lat ++ "," ++ lon ++ "&navigate=yes"

/-- Spec-side per-character encoding policy, from the spec's words: exactly
the space character is replaced by "%20"; every other character is kept
unencoded. -/
def specEncodeChar (c : Char) : List Char :=
  if c = ' ' then ['%', '2', '0'] else [c]

/-! ## Dialogue state machine (ConversationHandler) -/

/-- Conversation stages. `LANG_SELECT` is the not-in-conversation state in
which only the entry points (language buttons, order buttons, /start) react;
`NAME`..`CONFIRM` are the ConversationHandler states. Ending the conversation
returns to `LANG_SELECT`. -/
inductive Stage : Type where
  | LANG_SELECT
  | NAME
  | PHONE
  | PICKUP
  | DROPOFF
  | CONFIRM
deriving DecidableEq, Repr

/-- An inbound update, as discriminated by the handler filters: a plain text
message, a shared contact, a shared location, an inline-button callback, or a
slash command. The update kinds are mutually exclusive. -/
inductive Event : Type where
  | text (t : String)
  | contact (phone : String)
  | location (lat lon : String)
  | callback (data : String)
  | command (name : String)
deriving DecidableEq, Repr

/-- Language-button label for Ukrainian. -/
def LANG_UK : String := "🇺🇦 Українська"

/-- Language-button label for English. -/
def LANG_EN : String := "🇬🇧 English"

/-- Order-button label, English. -/
def ORDER_EN : String := "🚖 Order Taxi"

/-- Order-button label, Ukrainian. -/
def ORDER_UK : String := "🚖 Замовити таксі"

/-- `order_taxi`: defaults the language to English when unset and asks for the
name (state NAME). -/
def order_taxi (sess : Session) : Stage × Session :=
  let sess := if sess.lang = none then { sess with lang := some "en" } else sess
  (.NAME, sess)

/-- `cancel` fallback: reset the session keeping the language, end the
conversation. -/
def cancelStep (sess : Session) : Stage × Session :=
  (.LANG_SELECT, resetSession sess)

/-- The dialogue transition function: dispatches an inbound event through the
handler table of `main` (entry points, per-state message/callback handlers,
the /cancel fallback). An update matched by no handler leaves stage and
session untouched. The CONFIRM "confirm" callback hands off to the dispatcher
(modelled separately as `confirm_order`) and resets the session. -/
def step : Stage → Session → Event → Stage × Session
  | .LANG_SELECT, sess, .text t =>
    if t = LANG_UK then order_taxi { sess with lang := some "uk" }
    else if t = LANG_EN then (.LANG_SELECT, { sess with lang := some "en" })
    else if t = ORDER_EN ∨ t = ORDER_UK then order_taxi sess
    else (.LANG_SELECT, sess)
  | .LANG_SELECT, sess, _ => (.LANG_SELECT, sess)
  | .NAME, sess, .text t => (.PHONE, { sess with name := some t })
  | .NAME, sess, .command n =>
    if n = "cancel" then cancelStep sess else (.NAME, sess)
  | .NAME, sess, _ => (.NAME, sess)
  | .PHONE, sess, .contact p => (.PICKUP, { sess with phone := some p })
  | .PHONE, sess, .text t => (.PICKUP, { sess with phone := some t })
  | .PHONE, sess, .command n =>
    if n = "cancel" then cancelStep sess else (.PHONE, sess)
  | .PHONE, sess, _ => (.PHONE, sess)
  | .PICKUP, sess, .location lat lon =>
    (.DROPOFF, { sess with
      pickup := some ("📍 Location: " ++ lat ++ ", " ++ lon)
      pickup_coords := some (lat, lon)
      waze_link := some (wazeLinkOfCoords lat lon) })
  | .PICKUP, sess, .text t =>
    (.DROPOFF, { sess with
      pickup := some t
      pickup_coords := none
      waze_link := some (wazeLinkOfAddress t) })
  | .PICKUP, sess, .command n =>
    if n = "cancel" then cancelStep sess else (.PICKUP, sess)
  | .PICKUP, sess, _ => (.PICKUP, sess)
  | .DROPOFF, sess, .text t =>
    (.CONFIRM, { sess with dropoff := some t, comment := some "" })
  | .DROPOFF, sess, .command n =>
    if n = "cancel" then cancelStep sess else (.DROPOFF, sess)
  | .DROPOFF, sess, _ => (.DROPOFF, sess)
  | .CONFIRM, sess, .callback d =>
    if d = "add_comment" then (.CONFIRM, { sess with waiting_for_comment := true })
    else if d = "confirm" then (.LANG_SELECT, resetSession sess)
    else (.CONFIRM, sess)
  | .CONFIRM, sess, .text t =>
    if sess.waiting_for_comment then
      (.CONFIRM, { sess with comment := some t, waiting_for_comment := false })
    else (.CONFIRM, sess)
  | .CONFIRM, sess, .command n =>
    if n = "cancel" then cancelStep sess else (.CONFIRM, sess)
  | .CONFIRM, sess, _ => (.CONFIRM, sess)

/-- Spec-side acceptance predicate, read off the transition table of the spec
(§4.2): which event kinds the current stage accepts, including the
`awaitingComment` guard on free text in CONFIRM and the cancel row that
applies in any state. -/
def specAccepts : Stage → Session → Event → Bool
  | .LANG_SELECT, _, .text t =>
    t = LANG_UK || t = LANG_EN || t = ORDER_EN || t = ORDER_UK
  | .LANG_SELECT, _, .command n => n = "start" || n = "cancel"
  | .LANG_SELECT, _, _ => false
  | .NAME, _, .text _ => true
  | .NAME, _, .command n => n = "cancel"
  | .NAME, _, _ => false
  | .PHONE, _, .text _ => true
  | .PHONE, _, .contact _ => true
  | .PHONE, _, .command n => n = "cancel"
  | .PHONE, _, _ => false
  | .PICKUP, _, .text _ => true
  | .PICKUP, _, .location _ _ => true
  | .PICKUP, _, .command n => n = "cancel"
  | .PICKUP, _, _ => false
  | .DROPOFF, _, .text _ => true
  | .DROPOFF, _, .command n => n = "cancel"
  | .DROPOFF, _, _ => false
  | .CONFIRM, sess, .text _ => sess.waiting_for_comment
  | .CONFIRM, _, .callback d => d = "confirm" || d = "add_comment"
  | .CONFIRM, _, .command n => n = "cancel"
  | .CONFIRM, _, _ => false

/-! ## Dispatcher (confirm_order) -/

/-- The contact line of the order message: `@username` when the requester has
a (truthy) handle, otherwise the stored phone. -/
inductive ContactLine : Type where
  | byUsername (u : String)
  | byPhone (p : String)
deriving DecidableEq, Repr

/-- The order message body assembled in `confirm_order` (field order: name,
phone, pickup, dropoff, optional comment, Waze link, contact line; the comment
line is present only when the comment is non-empty). -/
structure OrderBody : Type where
  name : String
  phone : String
  pickup : String
  dropoff : String
  comment : Option String
  waze : String
  contact : ContactLine
deriving DecidableEq, Repr

/-- Assembles the order message from the session and the requester's handle,
mirroring the `order_lines` construction. -/
def orderBody (sess : Session) (username : Option String) : OrderBody :=
  { name := sess.name.getD ""
    phone := sess.phone.getD ""
    pickup := sess.pickup.getD ""
    dropoff := sess.dropoff.getD ""
    comment := if sess.comment.getD "" = "" then none else sess.comment
    waze := sess.waze_link.getD ""
    contact :=
      match username with
      | some u => if u = "" then .byPhone (sess.phone.getD "(no phone)")
                  else .byUsername u
      | none => .byPhone (sess.phone.getD "(no phone)") }

/-- An outbound message, identified by its localization key and parameters
(the localization string tables are outside the core). -/
inductive Msg : Type where
  | noDriversAdmin (customer : String)
  | noDriversPassenger
  | startAgain
  | orderAccepted
  | orderDeliveryFailed (customer : String) (count : Nat)
  | order (body : OrderBody)
deriving DecidableEq, Repr

/-- The delivery loop of `confirm_order`: one `send_message` attempt per
driver id in snapshot order; a failed attempt (oracle `sendOk` false) appends
the id to `failed_deliveries` and the loop continues with the next driver.
Returns (attempted ids, failed ids), both in iteration order. -/
def deliverAll (sendOk : Int → Bool) : List Int → List Int × List Int
  | [] => ([], [])
  | d :: rest =>
    let r := deliverAll sendOk rest
    if sendOk d then (d :: r.1, r.2) else (d :: r.1, d :: r.2)

/-- Everything `confirm_order` does, as observable effects: the driver ids it
attempted to send the order to, the collected failed deliveries, the messages
sent to the admin chat, the text the requester's inline message is edited to,
the follow-up messages to the requester, the session left behind, and the next
conversation stage (ConversationHandler.END, i.e. back to LANG_SELECT). -/
structure DispatchOut : Type where
  attempts : List Int
  failed : List Int
  adminSends : List (Int × Msg)
  requesterEdits : List Msg
  requesterSends : List Msg
  endSession : Session
  next : Stage
deriving DecidableEq, Repr

/-- `confirm_order`: if no drivers are registered, notify the admin (only when
`bot_data.get("admin_chat_id")` is truthy, i.e. set and non-zero), reset the
session keeping the language, tell the requester no drivers are available, and
end. Otherwise attempt delivery to every driver, collect failures, notify the
admin of failures (only when the admin_chat_id key is present), acknowledge
success to the requester unconditionally, reset the session keeping the
language, and end. -/
def confirm_order (sess : Session) (username : Option String)
    (driver_chat_ids : List Int) (admin_chat_id : Option Int)
    (sendOk : Int → Bool) : DispatchOut :=
  let customer_name := sess.name.getD "Unknown"
  if driver_chat_ids.isEmpty then
    { attempts := []
      failed := []
      adminSends :=
        match admin_chat_id with
        | some c => if c ≠ 0 then [(c, .noDriversAdmin customer_name)] else []
        | none => []
      requesterEdits := [.noDriversPassenger]
      requesterSends := [.startAgain]
      endSession := resetSession sess
      next := .LANG_SELECT }
  else
    let r := deliverAll sendOk driver_chat_ids
    { attempts := r.1
      failed := r.2
      adminSends :=
        if r.2.isEmpty then []
        else
          match admin_chat_id with
          | some c =>
            [(c, .orderDeliveryFailed
                  (match username with
                   | some u => if u = "" then customer_name else u
                   | none => customer_name)
                  r.2.length)]
          | none => []
      requesterEdits := [.orderAccepted]
      requesterSends := [.startAgain]
      endSession := resetSession sess
      next := .LANG_SELECT }

/-- The DeliveryReport of the spec: total recipient count of the dispatch and
the ordered failed-endpoint list. -/
structure DeliveryReport : Type where
  recipientCount : Nat
  failed : List Int
deriving DecidableEq, Repr

/-- The report a dispatch produces: recipient count is the snapshot size,
failures come from the delivery loop. -/
def dispatchReport (driver_chat_ids : List Int) (o : DispatchOut) : DeliveryReport :=
  { recipientCount := driver_chat_ids.length, failed := o.failed }

/-- Whether the dispatch routes its report to the operator-notification path:
the empty-registry branch always enters it, the normal branch enters it
exactly when some delivery failed (whether the message is then actually sent
depends on the recorded admin chat). -/
def operatorRouted (driver_chat_ids : List Int) (o : DispatchOut) : Bool :=
  driver_chat_ids.isEmpty || !o.failed.isEmpty

/-! ## Admin command surface (process-run model) -/

/-- One admin command invocation: the caller's username (possibly absent), the
caller's chat id, and the parsed command arguments (each argument carries the
result of `int(arg)`, `none` when the conversion raises ValueError). -/
inductive Cmd : Type where
  | add (username : Option String) (chat : Int) (args : List (Option Int))
  | remove (username : Option String) (chat : Int) (args : List (Option Int))
  | listCmd (username : Option String)
deriving DecidableEq, Repr

/-- Process-wide mutable state touched by the admin commands: the recorded
admin chat (`context.bot_data["admin_chat_id"]`, absent at startup) and the
in-memory driver registry. -/
structure ProcState : Type where
  admin_chat_id : Option Int
  drivers : List Int
deriving DecidableEq, Repr

/-- One admin command against the process state. `add_driver` checks the
caller against ADMIN_USERNAME, then records the caller's chat as
admin_chat_id before validating arguments, then mutates the registry;
`remove_driver` and `list_drivers` never record an admin chat. -/
def runCmd (adminUsername : String) (st : ProcState) : Cmd → ProcState
  | .add u chat args =>
    if u ≠ some adminUsername then st
    else
      let st := { st with admin_chat_id := some chat }
      match args with
      | [some id] => { st with drivers := (add_driver_core st.drivers id).1 }
      | _ => st
  | .remove u _ args =>
    if u ≠ some adminUsername then st
    else
      match args with
      | [some id] => { st with drivers := (remove_driver_core st.drivers id).1 }
      | _ => st
  | .listCmd _ => st

/-- A whole process run of admin commands from a starting state. -/
def runCmds (adminUsername : String) (st : ProcState) (cmds : List Cmd) : ProcState :=
  cmds.foldl (runCmd adminUsername) st

/-- Whether a command is an add-fulfiller command passing the authorization
check. -/
def isAuthorizedAdd (adminUsername : String) : Cmd → Bool
  | .add u _ _ => u = some adminUsername
  | _ => false

/-- The requester-facing (and fulfiller-facing) portion of a dispatch outcome:
everything except the admin notifications. -/
def requesterView (o : DispatchOut) :
    List Int × List Int × List Msg × List Msg × Session × Stage :=
  (o.attempts, o.failed, o.requesterEdits, o.requesterSends, o.endSession, o.next)

/-- Spec-side: the fully cleared session that retains only the selected
locale — every draft field back at its initial value. -/
def clearedSession (l : String) : Session :=
  { lang := some l
    name := none
    phone := none
    pickup := none
    pickup_coords := none
    waze_link := none
    dropoff := none
    comment := none
    waiting_for_comment := false }

/-! ## Lemmas: registry persistence -/

theorem intList_map_atom (ids : List Int) :
    intList (ids.map fun n => .atom (some n)) = some ids := by
  induction ids with
  | nil => rfl
  | cons n rest ih => simp [intList, jvalToInt, ih]

theorem intList_of_bad (xs : List JVal) (h : ∃ x ∈ xs, jvalToInt x = none) :
    intList xs = none := by
  induction xs with
  | nil => simp at h
  | cons x rest ih =>
    rcases h with ⟨y, hy, hnone⟩
    rcases List.mem_cons.mp hy with rfl | hmem
    · simp [intList, hnone]
    · cases hx : jvalToInt x with
      | none => simp [intList, hx]
      | some n => simp [intList, hx, ih ⟨y, hmem, hnone⟩]

theorem load_save (ids : List Int) :
    load_driver_ids (save_driver_ids ids) = ids := by
  simp [load_driver_ids, save_driver_ids, intList_map_atom]

/-! ## Lemmas: dispatcher -/

theorem deliverAll_fst (sendOk : Int → Bool) (l : List Int) :
    (deliverAll sendOk l).1 = l := by
  induction l with
  | nil => rfl
  | cons d rest ih =>
    cases h : sendOk d <;> simp [deliverAll, h, ih]

theorem deliverAll_snd (sendOk : Int → Bool) (l : List Int) :
    (deliverAll sendOk l).2 = l.filter (fun d => !sendOk d) := by
  induction l with
  | nil => rfl
  | cons d rest ih =>
    cases h : sendOk d <;> simp [deliverAll, h, ih]

/-! ## Lemmas: navigation link -/

theorem replaceSpace_eq_flatMap (l : List Char) :
    replaceSpace l = l.flatMap specEncodeChar := by
  induction l with
  | nil => rfl
  | cons c cs ih =>
    by_cases h : c = ' ' <;> simp [replaceSpace, specEncodeChar, h, ih]

/-! ## Lemmas: admin chat recording -/

theorem runCmd_admin_of_not (au : String) (st : ProcState) (c : Cmd)
    (h : isAuthorizedAdd au c = false) :
    (runCmd au st c).admin_chat_id = st.admin_chat_id := by
  cases c with
  | add u chat args =>
    simp only [isAuthorizedAdd, decide_eq_false_iff_not] at h
    simp [runCmd, h]
  | remove u chat args =>
    by_cases hu : u = some au
    · simp only [runCmd, hu]
      rw [if_neg (by simp)]
      split <;> rfl
    · simp [runCmd, hu]
  | listCmd u => rfl

theorem runCmd_admin_ne_none (au : String) (st : ProcState) (c : Cmd)
    (h : st.admin_chat_id ≠ none) :
    (runCmd au st c).admin_chat_id ≠ none := by
  cases c with
  | add u chat args =>
    by_cases hu : u ≠ some au
    · simpa [runCmd, hu] using h
    · simp only [runCmd, hu, if_false]
      split <;> simp
  | remove u chat args =>
    by_cases hu : u ≠ some au
    · simpa [runCmd, hu] using h
    · simp only [runCmd, hu, if_false]
      split <;> simpa using h
  | listCmd u => simpa [runCmd] using h

theorem runCmd_admin_of_auth (au : String) (st : ProcState) (c : Cmd)
    (h : isAuthorizedAdd au c = true) :
    (runCmd au st c).admin_chat_id ≠ none := by
  cases c with
  | add u chat args =>
    simp only [isAuthorizedAdd, decide_eq_true_eq] at h
    subst h
    simp only [runCmd]
    rw [if_neg (by simp)]
    split <;> simp
  | remove u chat args => simp [isAuthorizedAdd] at h
  | listCmd u => simp [isAuthorizedAdd] at h

theorem runCmds_admin_none (au : String) (cmds : List Cmd) :
    ∀ st0 : ProcState, st0.admin_chat_id = none →
      (∀ c ∈ cmds, isAuthorizedAdd au c = false) →
      (runCmds au st0 cmds).admin_chat_id = none := by
  induction cmds with
  | nil => intro st0 h _; exact h
  | cons c rest ih =>
    intro st0 h hall
    have hc : isAuthorizedAdd au c = false := hall c (List.mem_cons_self c rest)
    have : (runCmd au st0 c).admin_chat_id = none := by
      rw [runCmd_admin_of_not au st0 c hc]; exact h
    exact ih (runCmd au st0 c) this fun d hd => hall d (List.mem_cons_of_mem c hd)

theorem runCmds_admin_ne_none (au : String) (cmds : List Cmd) :
    ∀ st0 : ProcState, st0.admin_chat_id ≠ none →
      (runCmds au st0 cmds).admin_chat_id ≠ none := by
  induction cmds with
  | nil => intro st0 h; exact h
  | cons c rest ih =>
    intro st0 h
    exact ih (runCmd au st0 c) (runCmd_admin_ne_none au st0 c h)

theorem runCmds_admin_of_mem (au : String) (cmds : List Cmd) :
    ∀ st0 : ProcState, (∃ c ∈ cmds, isAuthorizedAdd au c = true) →
      (runCmds au st0 cmds).admin_chat_id ≠ none := by
  induction cmds with
  | nil => intro st0 h; simp at h
  | cons c rest ih =>
    intro st0 h
    rcases h with ⟨d, hd, hauth⟩
    rcases List.mem_cons.mp hd with rfl | hmem
    · exact runCmds_admin_ne_none au rest (runCmd au st0 d)
        (runCmd_admin_of_auth au st0 d hauth)
    · exact ih (runCmd au st0 c) ⟨d, hmem, hauth⟩

end TaxiBot

open TaxiBot

/-- C3 counterexample: the registry state reached by a single `load` from a
persisted store holding the JSON array [1, 1] is the list [1, 1], which
contains a duplicate identifier — `load` does not deduplicate. -/
theorem C3_load_duplicates_cex :
    ¬ (load_driver_ids
        (.parsed (.arr [.atom (some 1), .atom (some 1)]))).Nodup := by
  decide

/-- C3 (amended): add and remove preserve duplicate-freedom of the registry,
and loading a store written by `save` from a duplicate-free list yields a
duplicate-free registry; but `load` from an arbitrary persisted store does not
deduplicate, so only states whose loads come from `save`-written (or otherwise
duplicate-free) stores are guaranteed duplicate-free. -/
theorem C3_registry_nodup_preserved (s : List Int) (id : Int) (h : s.Nodup) :
    (add_driver_core s id).1.Nodup ∧
    (remove_driver_core s id).1.Nodup ∧
    (load_driver_ids (save_driver_ids s)).Nodup := by
  refine ⟨?_, ?_, ?_⟩
  · by_cases hin : id ∈ s
    · simpa [add_driver_core, hin] using h
    · simp only [add_driver_core, hin, if_false]
      exact List.Nodup.append h (List.nodup_singleton id)
        (List.disjoint_singleton.mpr hin)
  · by_cases hin : id ∈ s
    · simpa [remove_driver_core, hin] using h.erase id
    · simpa [remove_driver_core, hin] using h
  · simpa [load_save] using h

/-- C3 witness: a concrete duplicate-free registry on which add, remove and
the save/load round trip all preserve duplicate-freedom. -/
theorem C3_registry_nodup_preserved_witness :
    (add_driver_core [(1 : Int), 2] 3).1.Nodup ∧
    (remove_driver_core [(1 : Int), 2] 3).1.Nodup ∧
    (load_driver_ids (save_driver_ids [(1 : Int), 2])).Nodup :=
  C3_registry_nodup_preserved [(1 : Int), 2] 3 (by decide)

/-- C6 counterexample: with the registry already holding identifier 5, calling
add(5) twice leaves the cardinality unchanged (both calls report
AlreadyExists), so the two calls do not increase the cardinality by one. -/
theorem C6_double_add_cex :
    (add_driver_core (add_driver_core [(5 : Int)] 5).1 5).1.length ≠
      [(5 : Int)].length + 1 := by
  decide

/-- C6 (amended): for an identifier absent from the registry, calling add(id)
twice increases the cardinality by exactly one across the two calls; the first
call reports Added and the second reports AlreadyExists without mutating the
registry. (When the id is already present, both calls report AlreadyExists and
the cardinality is unchanged.) -/
theorem C6_add_add_idempotent (s : List Int) (id : Int) (h : id ∉ s) :
    (add_driver_core s id).2 = .Added ∧
    (add_driver_core (add_driver_core s id).1 id).2 = .AlreadyExists ∧
    (add_driver_core (add_driver_core s id).1 id).1 = (add_driver_core s id).1 ∧
    (add_driver_core (add_driver_core s id).1 id).1.length = s.length + 1 := by
  have hmem : id ∈ s ++ [id] := List.mem_append_right s (List.mem_singleton.mpr rfl)
  refine ⟨by simp [add_driver_core, h], ?_, ?_, ?_⟩
  · simp [add_driver_core, h, hmem]
  · simp [add_driver_core, h, hmem]
  · simp [add_driver_core, h, hmem]

/-- C6 witness: adding 7 twice to the registry [5] — first call Added, second
AlreadyExists and a no-op, cardinality grows from 1 to 2. -/
theorem C6_add_add_idempotent_witness :
    (add_driver_core [(5 : Int)] 7).2 = .Added ∧
    (add_driver_core (add_driver_core [(5 : Int)] 7).1 7).2 = .AlreadyExists ∧
    (add_driver_core (add_driver_core [(5 : Int)] 7).1 7).1 =
      (add_driver_core [(5 : Int)] 7).1 ∧
    (add_driver_core (add_driver_core [(5 : Int)] 7).1 7).1.length =
      [(5 : Int)].length + 1 :=
  C6_add_add_idempotent [(5 : Int)] 7 (by decide)

/-- C7: `load_driver_ids` never propagates an error — it is a total function
returning the empty list on a missing store, on an unreadable store, on
invalid JSON, on a JSON payload that is not a list, and on a list containing
an element not convertible to an integer. -/
theorem C7_load_fails_soft :
    load_driver_ids .missing = [] ∧
    load_driver_ids .ioError = [] ∧
    load_driver_ids .parseError = [] ∧
    (∀ v, load_driver_ids (.parsed (.atom v)) = []) ∧
    (∀ xs, (∃ x ∈ xs, jvalToInt x = none) →
      load_driver_ids (.parsed (.arr xs)) = []) := by
  refine ⟨rfl, rfl, rfl, fun v => rfl, fun xs h => ?_⟩
  simp [load_driver_ids, intList_of_bad xs h]

/-- C7 witness: loading a store whose JSON array holds a non-convertible
element (e.g. null) returns the empty list. -/
theorem C7_load_fails_soft_witness :
    load_driver_ids (.parsed (.arr [.atom none])) = [] :=
  C7_load_fails_soft.2.2.2.2 [.atom none] ⟨.atom none, by simp [jvalToInt]⟩

/-- C8: on a healthy store, `save_driver_ids` followed by `load_driver_ids`
returns the identifiers unchanged — in particular equal to the saved list as a
set (order-insensitive round trip). -/
theorem C8_save_load_roundtrip (ids : List Int) :
    load_driver_ids (save_driver_ids ids) = ids ∧
    (load_driver_ids (save_driver_ids ids)).toFinset = ids.toFinset := by
  refine ⟨load_save ids, by rw [load_save]⟩

/-- C1: dispatching to a non-empty registry snapshot attempts exactly one
send per endpoint in snapshot order regardless of individual outcomes (no
short-circuiting on failure), the failed list is exactly the endpoints whose
send failed in snapshot order, and the requester is acknowledged with the
normal success message whatever the outcomes. -/
theorem C1_dispatch_fanout (sess : Session) (username : Option String)
    (ids : List Int) (adminChat : Option Int) (sendOk : Int → Bool)
    (hne : ids ≠ []) (hnd : ids.Nodup) :
    (confirm_order sess username ids adminChat sendOk).attempts = ids ∧
    (∀ e ∈ ids,
      (confirm_order sess username ids adminChat sendOk).attempts.count e = 1) ∧
    (confirm_order sess username ids adminChat sendOk).failed =
      ids.filter (fun d => !sendOk d) ∧
    (confirm_order sess username ids adminChat sendOk).requesterEdits =
      [Msg.orderAccepted] := by
  have hE : ids.isEmpty = false := by
    cases ids with
    | nil => exact absurd rfl hne
    | cons a l => rfl
  refine ⟨?_, ?_, ?_, ?_⟩
  · simp [confirm_order, hE, deliverAll_fst]
  · intro e he
    simp only [confirm_order, hE, Bool.false_eq_true, if_false, deliverAll_fst]
    exact List.count_eq_one_of_mem hnd he
  · simp [confirm_order, hE, deliverAll_snd]
  · simp [confirm_order, hE]

/-- C1 witness: snapshot [10, 20] where sends to 10 fail and sends to 20
succeed — both endpoints attempted, failed list exactly [10], requester still
acknowledged normally. -/
theorem C1_dispatch_fanout_witness :
    (confirm_order {} none [(10 : Int), 20] none (fun d => d ≠ 10)).attempts =
      [(10 : Int), 20] ∧
    (∀ e ∈ [(10 : Int), 20],
      (confirm_order {} none [(10 : Int), 20] none
        (fun d => d ≠ 10)).attempts.count e = 1) ∧
    (confirm_order {} none [(10 : Int), 20] none (fun d => d ≠ 10)).failed =
      [(10 : Int), 20].filter (fun d => !(fun d => d ≠ 10 : Int → Bool) d) ∧
    (confirm_order {} none [(10 : Int), 20] none
      (fun d => d ≠ 10)).requesterEdits = [Msg.orderAccepted] :=
  C1_dispatch_fanout {} none [(10 : Int), 20] none (fun d => d ≠ 10)
    (by decide) (by decide)

/-- C2: dispatching with an empty registry snapshot attempts no delivery,
produces the zero-recipient report and routes it to the operator-notification
path, acknowledges the requester with the no-fulfillers message, and ends the
conversation (terminal — nothing is queued or retried). -/
theorem C2_dispatch_empty_registry (sess : Session) (username : Option String)
    (adminChat : Option Int) (sendOk : Int → Bool) :
    (confirm_order sess username [] adminChat sendOk).attempts = [] ∧
    dispatchReport [] (confirm_order sess username [] adminChat sendOk) =
      { recipientCount := 0, failed := [] } ∧
    operatorRouted [] (confirm_order sess username [] adminChat sendOk) = true ∧
    (confirm_order sess username [] adminChat sendOk).requesterEdits =
      [Msg.noDriversPassenger] ∧
    (confirm_order sess username [] adminChat sendOk).requesterSends =
      [Msg.startAgain] ∧
    (confirm_order sess username [] adminChat sendOk).next = Stage.LANG_SELECT := by
  refine ⟨rfl, ?_, rfl, rfl, rfl, rfl⟩
  simp [dispatchReport, confirm_order]

/-- C4: an inbound event not accepted by the current stage per the spec's
transition table (including free text in CONFIRM while awaitingComment is
false, and structured contacts outside PHONE) leaves the stage and every
session field unchanged — no transition occurs. -/
theorem C4_invalid_event_frame (st : Stage) (sess : Session) (ev : Event)
    (h : specAccepts st sess ev = false) :
    step st sess ev = (st, sess) := by
  cases ev <;> cases st <;>
    simp_all [specAccepts, step, cancelStep, order_taxi]

/-- C4 witness: free text arriving in CONFIRM while awaitingComment is false
is not an accepted event and changes nothing. -/
theorem C4_invalid_event_frame_witness :
    specAccepts .CONFIRM {} (.text "hello") = false ∧
    step .CONFIRM {} (.text "hello") = (.CONFIRM, {}) :=
  ⟨rfl, C4_invalid_event_frame .CONFIRM {} (.text "hello") rfl⟩

/-- C5: the pickup-to-navigation-link derivation is total and has no error
path — free-text addresses yield the address-query link with exactly the
space characters replaced by "%20" (every other character kept verbatim), and
coordinate pairs yield the lat/lon link with no percent-encoding applied. -/
theorem C5_waze_link_derivation (sess : Session) (addr lat lon : String) :
    (step .PICKUP sess (.text addr)).2.waze_link =
      some ("https://waze.com/ul?q=" ++
        String.mk (addr.data.flatMap specEncodeChar) ++ "&navigate=yes") ∧
    (step .PICKUP sess (.location lat lon)).2.waze_link =
      some ("https://waze.com/ul?ll=" ++ lat ++ "," ++ lon ++
        "&navigate=yes") := by
  constructor
  · simp [step, wazeLinkOfAddress, encodeSpaces, replaceSpace_eq_flatMap]
  · rfl

/-- C9: the session reset performed on submit, on cancellation, and on the
no-fulfillers dispatch path clears every draft field (name, phone, pickup and
its coordinates, navigation link, dropoff, comment, awaiting-comment flag)
while preserving the selected locale, so the locale survives into the next
order of the same session. -/
theorem C9_reset_preserves_locale (sess : Session) (l : String)
    (username : Option String) (ids : List Int) (adminChat : Option Int)
    (sendOk : Int → Bool) (st : Stage) (h : sess.lang = some l)
    (hst : st ≠ .LANG_SELECT) :
    resetSession sess = clearedSession l ∧
    (step st sess (.command "cancel")).2 = clearedSession l ∧
    (step .CONFIRM sess (.callback "confirm")).2 = clearedSession l ∧
    (confirm_order sess username ids adminChat sendOk).endSession =
      clearedSession l := by
  have hreset : resetSession sess = clearedSession l := by
    simp [resetSession, clearedSession, h]
  refine ⟨hreset, ?_, ?_, ?_⟩
  · cases st <;> simp_all [step, cancelStep]
  · simpa [step] using hreset
  · cases ids <;> simp [confirm_order, hreset]

/-- C9 witness: a mid-order Ukrainian-locale session is fully cleared by the
cancel, confirm and dispatch resets, with the locale kept. -/
theorem C9_reset_preserves_locale_witness :
    resetSession { lang := some "uk", name := some "Alex" } =
      clearedSession "uk" ∧
    (step .NAME { lang := some "uk", name := some "Alex" }
      (.command "cancel")).2 = clearedSession "uk" ∧
    (step .CONFIRM { lang := some "uk", name := some "Alex" }
      (.callback "confirm")).2 = clearedSession "uk" ∧
    (confirm_order { lang := some "uk", name := some "Alex" } none [] none
      (fun _ => true)).endSession = clearedSession "uk" :=
  C9_reset_preserves_locale { lang := some "uk", name := some "Alex" } "uk"
    none [] none (fun _ => true) .NAME rfl (by decide)

/-- C10: the admin chat is recorded exactly by an authorized add-fulfiller
command (and by nothing else) during a process run; a dispatch with no
recorded admin chat sends no operator notification while its requester-facing
behavior (attempts, failures, acknowledgments, session reset, next stage) is
identical to a dispatch with an admin chat recorded. -/
theorem C10_operator_notification_gated (au : String) (st0 : ProcState)
    (cmds : List Cmd) (sess : Session) (username : Option String)
    (ids : List Int) (sendOk : Int → Bool)
    (h : st0.admin_chat_id = none) :
    ((runCmds au st0 cmds).admin_chat_id ≠ none ↔
      ∃ c ∈ cmds, isAuthorizedAdd au c = true) ∧
    (confirm_order sess username ids none sendOk).adminSends = [] ∧
    ∀ c : Int, requesterView (confirm_order sess username ids none sendOk) =
      requesterView (confirm_order sess username ids (some c) sendOk) := by
  refine ⟨⟨fun hne => ?_, fun hex => runCmds_admin_of_mem au cmds st0 hex⟩, ?_, ?_⟩
  · by_contra hno
    push_neg at hno
    exact hne (runCmds_admin_none au cmds st0 h fun c hc => by
      simpa using hno c hc)
  · cases ids <;> simp [confirm_order]
  · intro c
    cases ids <;> simp [confirm_order, requesterView]

/-- C10 witness: after the single authorized add command the admin chat is
recorded; a dispatch with no recorded admin chat sends nothing to an operator
and looks identical to the requester. -/
theorem C10_operator_notification_gated_witness :
    ((runCmds "itsbarhit" { admin_chat_id := none, drivers := [] }
        [Cmd.add (some "itsbarhit") 42 [some 7]]).admin_chat_id ≠ none ↔
      ∃ c ∈ [Cmd.add (some "itsbarhit") 42 [some 7]],
        isAuthorizedAdd "itsbarhit" c = true) ∧
    (confirm_order {} none [(7 : Int)] none (fun _ => false)).adminSends = [] ∧
    ∀ c : Int, requesterView (confirm_order {} none [(7 : Int)] none
        (fun _ => false)) =
      requesterView (confirm_order {} none [(7 : Int)] (some c)
        (fun _ => false)) :=
  C10_operator_notification_gated "itsbarhit"
    { admin_chat_id := none, drivers := [] }
    [Cmd.add (some "itsbarhit") 42 [some 7]] {} none [(7 : Int)]
    (fun _ => false) rfl
